import Mathlib

/-!
Verification development for the YakBot per-user remote-document state
manager (src/bot.py, class BloodborneCog).

The Python code is shallowly embedded: spreadsheet cells are untyped
strings (empty cell = ""), a worksheet is a total map from A1-style cell
address to string, a spreadsheet maps tab titles to worksheets, and the
SQLite build cache maps stringified user ids to cache rows.  Remote and
local side effects are recorded as explicit operation traces.  Python's
dynamically-typed numeric arguments are embedded as the tagged value
type PyVal; Python float parsing is modelled over ℚ restricted to plain
decimal literals (optional sign, digits, optional single decimal point),
which covers every value form used by the sheet pipeline; exponent and
inf/nan forms of Python's float() are outside the modelled fragment.
-/

/-! ### Worksheets, regions and operation traces -/

/-! ### Spreadsheet, provisioning, cache and commands -/

/-! ### Concrete states for witnesses and counterexamples -/

namespace YakBot

/-- A Python value as it flows through the numeric helpers: None, a string
(spreadsheet cell content), or a number (Python float, modelled as ℚ). -/
inductive PyVal where
  | none : PyVal
  | str : String → PyVal
  | num : ℚ → PyVal
deriving DecidableEq, Repr

/-- Python truthiness: None, "" and 0 are falsy. -/
def PyVal.truthy : PyVal → Bool
  | PyVal.none => false
  | PyVal.str s => s ≠ ""
  | PyVal.num q => q ≠ 0

/-- Value of a list of decimal digit characters. -/
def digitsVal (cs : List Char) : ℕ :=
  cs.foldl (fun a c => a * 10 + (c.toNat - '0'.toNat)) 0

/-- Parse an unsigned decimal literal (digits, optional single point),
as accepted by Python float() for the plain-decimal fragment. -/
def parseUnsigned? (cs : List Char) : Option ℚ :=
  let ip := cs.takeWhile Char.isDigit
  let rest := cs.dropWhile Char.isDigit
  match rest with
  | [] => if ip.isEmpty then Option.none else some (digitsVal ip : ℚ)
  | '.' :: fr =>
    if fr.all Char.isDigit && !(ip.isEmpty && fr.isEmpty) then
      some ((digitsVal ip : ℚ) + (digitsVal fr : ℚ) / ((10 : ℚ) ^ fr.length))
    else Option.none
  | _ => Option.none

/-- Python float(s) on the plain-decimal fragment (with optional sign). -/
def parseDecimal? (s : String) : Option ℚ :=
  match s.toList with
  | '-' :: cs => (parseUnsigned? cs).map (fun q => -q)
  | '+' :: cs => parseUnsigned? cs
  | cs => parseUnsigned? cs

/-- Python int(s): optional sign followed by one or more digits. -/
def parseInt? (s : String) : Option ℤ :=
  match s.toList with
  | '-' :: cs =>
    if !cs.isEmpty && cs.all Char.isDigit then some (-(digitsVal cs : ℤ)) else Option.none
  | '+' :: cs =>
    if !cs.isEmpty && cs.all Char.isDigit then some (digitsVal cs : ℤ) else Option.none
  | cs =>
    if !cs.isEmpty && cs.all Char.isDigit then some (digitsVal cs : ℤ) else Option.none

/-- s.replace(",", "") on the comma character. -/
def stripCommas (s : String) : String :=
  String.mk (s.toList.filter (fun c => c != ','))

/-- float(str(v).replace(",", "")) applied to a dynamic value: numbers
round-trip; strings are comma-stripped and parsed; a failure is None. -/
def pyFloat? : PyVal → Option ℚ
  | PyVal.none => Option.none
  | PyVal.str s => parseDecimal? (stripCommas s)
  | PyVal.num q => some q

/-- BloodborneCog._compute_h2k.  Mirrors the source: both arguments are
first tested for Python falsiness; the damage argument is comma-stripped
and parsed (a parse failure is caught and yields None, as is dmg ≤ 0);
the health argument is used as-is in the division, so a string health
raises a TypeError that the except swallows into None. -/
def _compute_h2k (total_final_dmg enemy_health : PyVal) : Option ℤ :=
  if !total_final_dmg.truthy || !enemy_health.truthy then Option.none
  else
    match pyFloat? total_final_dmg with
    | Option.none => Option.none
    | some dmg =>
      if dmg ≤ 0 then Option.none
      else
        match enemy_health with
        | PyVal.num h => some ⌈h / dmg⌉
        | _ => Option.none

/-- BloodborneCog._read_enemy_health on the fetched cell value: the cell
string is comma-stripped and parsed as a float when truthy; a blank cell
or a parse failure yields None. -/
def _read_enemy_health (v : Option String) : Option ℚ :=
  match v with
  | Option.none => Option.none
  | some s => if s = "" then Option.none else parseDecimal? (stripCommas s)

/-- A worksheet: total map from A1-style cell address to cell content
(an empty cell holds ""). -/
def Worksheet : Type := String → String

/-- ws.update on a single cell. -/
def wsUpdate (ws : Worksheet) (addr v : String) : Worksheet :=
  fun c => if c = addr then v else ws c

/-- gspread's get drops trailing empty cells of the fetched range. -/
def dropTrailingEmpty : List String → List String
  | [] => []
  | x :: xs =>
    match dropTrailingEmpty xs with
    | [] => if x = "" then [] else [x]
    | ys => x :: ys

/-- ws.get over a fixed list of cell addresses, with gspread's
trailing-empty truncation. -/
def wsGet (ws : Worksheet) (cells : List String) : List String :=
  dropTrailingEmpty (cells.map ws)

/-- A full-region ws.update: write the values into the region cells in
order (one remote call). -/
def writeRegion : Worksheet → List String → List String → Worksheet
  | ws, c :: cs, v :: vs => writeRegion (wsUpdate ws c v) cs vs
  | ws, _, _ => ws

/-- One remote or local side-effecting operation of the cog, in program
order. -/
inductive Op where
  | fetchTab (title : String)
  | duplicateSheet (src new : String)
  | deleteSheet (title : String)
  | remoteRead (range : String)
  | remoteWrite (range : String)
  | cacheLoad
  | cacheSave
  | cacheDelete
deriving DecidableEq, Repr

/-- Remote (Google-document) operations, as opposed to local cache ones. -/
def Op.isRemote : Op → Bool
  | Op.fetchTab _ => true
  | Op.duplicateSheet _ _ => true
  | Op.deleteSheet _ => true
  | Op.remoteRead _ => true
  | Op.remoteWrite _ => true
  | _ => false

/-- Operations that mutate the remote document. -/
def Op.isRemoteWrite : Op → Bool
  | Op.duplicateSheet _ _ => true
  | Op.deleteSheet _ => true
  | Op.remoteWrite _ => true
  | _ => false

/-- Whether an operation is a read or write of the given range. -/
def opOnRange (r : String) : Op → Bool
  | Op.remoteRead r2 => r2 == r
  | Op.remoteWrite r2 => r2 == r
  | _ => false

/-- The GearSlots region Q2:Q9 (runes 1-3, oath, head, chest, arms, legs). -/
def gearCells : List String := ["Q2", "Q3", "Q4", "Q5", "Q6", "Q7", "Q8", "Q9"]

/-- The 9-cell gem region S21:S29. -/
def gemCells : List String :=
  ["S21", "S22", "S23", "S24", "S25", "S26", "S27", "S28", "S29"]

/-- A conditional single-cell write: `ws.update(addr, f s)` when the
optional argument is provided, no-op when it is None. -/
def optWrite (ws : Worksheet) (addr : String) (o : Option String)
    (f : String → String) : Worksheet :=
  match o with
  | some s => wsUpdate ws addr (f s)
  | Option.none => ws

/-- Trace of a conditional single-cell write. -/
def optTrace (o : Option String) (op : Op) : List Op :=
  match o with
  | some _ => [op]
  | Option.none => []

/-- BloodborneCog._set_gear: read Q2:Q9, substitute the provided fields
(None keeps the just-read current value, an absent trailing cell reads
as ""), write the whole region back. -/
def _set_gear (ws : Worksheet)
    (rune1 rune2 rune3 oath head chest arms legs : Option String) :
    Worksheet × List Op :=
  let current := wsGet ws gearCells
  let cur := fun i => current.getD i ""
  let values : List String :=
    [rune1.getD (cur 0), rune2.getD (cur 1), rune3.getD (cur 2), oath.getD (cur 3),
     head.getD (cur 4), chest.getD (cur 5), arms.getD (cur 6), legs.getD (cur 7)]
  (writeRegion ws gearCells values, [Op.remoteRead "Q2:Q9", Op.remoteWrite "Q2:Q9"])

/-- BloodborneCog._set_weapon_gems_attack: conditional single-cell writes
for weapon (Q17) and attack (R19); a read-merge-write of the 9-cell gem
region S21:S29 (the gems list is padded with None to length 9, None
slots keep the just-read current value); when a gem_ct_kinds tuple is
passed, Q23:Q29 is read (the source binds the result but never uses it)
and each provided kind is written to its own label cell Q23/Q26/Q29. -/
def _set_weapon_gems_attack (ws : Worksheet) (weapon : Option String)
    (gems : List (Option String)) (attack : Option String)
    (gem_ct_kinds : Option (Option String × Option String × Option String)) :
    Worksheet × List Op :=
  let ws1 := optWrite ws "Q17" weapon (fun w => w)
  let t1 := optTrace weapon (Op.remoteWrite "Q17")
  let current_gems := wsGet ws1 gemCells
  let cur_g := fun i => current_gems.getD i ""
  let padded := (gems ++ List.replicate 9 Option.none).take 9
  let values := (List.range 9).map (fun i => (padded.getD i Option.none).getD (cur_g i))
  let ws2 := writeRegion ws1 gemCells values
  let t2 : List Op := [Op.remoteRead "S21:S29", Op.remoteWrite "S21:S29"]
  let ws3 := optWrite ws2 "R19" attack (fun a => a)
  let t3 := optTrace attack (Op.remoteWrite "R19")
  match gem_ct_kinds with
  | Option.none => (ws3, t1 ++ t2 ++ t3)
  | some (k1, k2, k3) =>
    let ws4 := optWrite ws3 "Q23" k1 (fun s => "Gem 1 " ++ s)
    let ws5 := optWrite ws4 "Q26" k2 (fun s => "Gem 2 " ++ s)
    let ws6 := optWrite ws5 "Q29" k3 (fun s => "Gem 3 " ++ s)
    (ws6, t1 ++ t2 ++ t3 ++ [Op.remoteRead "Q23:Q29"] ++
      optTrace k1 (Op.remoteWrite "Q23") ++ optTrace k2 (Op.remoteWrite "Q26") ++
      optTrace k3 (Op.remoteWrite "Q29"))

/-- A fixed concrete worksheet for witnesses: every cell holds its own
address as content. -/
def wsId : Worksheet := fun c => c

/-- Template tab title (BASE_SHEET_TITLE in bot.py). -/
def BASE_SHEET_TITLE : String := "Character Sheet"

/-- BloodborneCog._user_tab_name: deterministic per-user tab name. -/
def _user_tab_name (user_id : ℕ) : String := "u_" ++ toString user_id

/-- The shared spreadsheet: tab title → worksheet when the tab exists. -/
structure Spreadsheet where
  sheets : String → Option Worksheet

/-- Replace or create a tab. -/
def shUpdate (sh : Spreadsheet) (title : String) (ws : Worksheet) : Spreadsheet :=
  ⟨fun t => if t = title then some ws else sh.sheets t⟩

/-- del_worksheet. -/
def shDelete (sh : Spreadsheet) (title : String) : Spreadsheet :=
  ⟨fun t => if t = title then Option.none else sh.sheets t⟩

/-- BloodborneCog._ensure_user_tab: fetch the user tab by name and return
it unchanged when present; otherwise duplicate the template under the
computed name and re-fetch it.  Returns none when both the user tab and
the template are missing (the WorksheetNotFound escapes the command). -/
def _ensure_user_tab (sh : Spreadsheet) (user_id : ℕ) :
    Option (Spreadsheet × String) × List Op :=
  let tab_name := _user_tab_name user_id
  match sh.sheets tab_name with
  | some _ => (some (sh, tab_name), [Op.fetchTab tab_name])
  | Option.none =>
    match sh.sheets BASE_SHEET_TITLE with
    | some base =>
      (some (shUpdate sh tab_name base, tab_name),
       [Op.fetchTab tab_name, Op.fetchTab BASE_SHEET_TITLE,
        Op.duplicateSheet BASE_SHEET_TITLE tab_name, Op.fetchTab tab_name])
    | Option.none =>
      (Option.none, [Op.fetchTab tab_name, Op.fetchTab BASE_SHEET_TITLE])

/-- One row of the builds table in bb_cache.sqlite: the six input
attributes, the label/value result pairs, and the sheet tab name. -/
structure CacheRecord where
  inputs : List ℤ
  results : List (String × String)
  sheet_tab : String
deriving DecidableEq, Repr

/-- Process state seen by the commands: the shared spreadsheet and the
local cache keyed by str(user_id). -/
structure BotState where
  sh : Spreadsheet
  cache : String → Option CacheRecord

/-- BloodborneCog._save_cache: SQLite upsert keyed by str(user_id). -/
def _save_cache (cache : String → Option CacheRecord) (user_id : ℕ)
    (rec : CacheRecord) : String → Option CacheRecord :=
  fun u => if u = toString user_id then some rec else cache u

/-- BloodborneCog._load_cache. -/
def _load_cache (st : BotState) (user_id : ℕ) : Option CacheRecord :=
  st.cache (toString user_id)

/-- Cell addresses of a column sub-range, e.g. colRegion "A" 2 67 for
A2:A67. -/
def colRegion (col : String) (lo hi : ℕ) : List String :=
  (List.range (hi + 1 - lo)).map (fun i => col ++ toString (lo + i))

/-- The InputAttributes region L8:L13. -/
def inputCells : List String := colRegion "L" 8 13

/-- Output labels M2:M13. -/
def outputLabelCells : List String := colRegion "M" 2 13

/-- Output values O2:O13. -/
def outputValueCells : List String := colRegion "O" 2 13

/-- The row[0] projection over a fetched one-column range: gspread
returns an interior empty cell as an empty row, whose row[0] raises
IndexError; a list containing an interior empty cell therefore has no
unguarded flattening (none). -/
def rowsFirst? (cells : List String) : Option (List String) :=
  cells.mapM (fun s => if s = "" then Option.none else some s)

/-- BloodborneCog._read_outputs: labels M2:M13 then values O2:O13, each
fetched and flattened with an unguarded row[0] (an interior empty cell
raises IndexError, modelled as none), then zipped to the shorter list. -/
def _read_outputs (ws : Worksheet) : Option (List (String × String)) :=
  match rowsFirst? (wsGet ws outputLabelCells) with
  | Option.none => Option.none
  | some labels =>
    match rowsFirst? (wsGet ws outputValueCells) with
    | Option.none => Option.none
    | some values => some (labels.zip values)

/-- Outcome of bb_show. -/
inductive ShowResult where
  | notFound (msg : String)
  | shown (inputs : List ℤ) (pairs : List (String × String)) (level origin : String)
  | error
deriving DecidableEq, Repr

/-- The fresh branch of bb_show: provision the tab, read and parse
L8:L13 as ints (a non-integer cell or a short row raises, modelled as
ShowResult.error), read the outputs — _read_outputs is inlined stage by
stage so the trace stops at the exact raising read: an interior-empty
label cell crashes after the M2:M13 read and before O2:O13 is read —
then upsert the cache and read level J5 and origin J2 for the embed.
When the six parsed inputs are not exactly six, the tuple unpack inside
_save_cache raises before any database write, so no cache-save
operation is traced on that path. -/
def bbShowFresh (st : BotState) (user_id : ℕ) : BotState × List Op × ShowResult :=
  match _ensure_user_tab st.sh user_id with
  | (Option.none, te) => (st, Op.cacheLoad :: te, ShowResult.error)
  | (some (sh1, tab), te) =>
    let ws := (sh1.sheets tab).getD (fun _ => "")
    let t1 := Op.cacheLoad :: te ++ [Op.remoteRead "L8:L13"]
    match (wsGet ws inputCells).mapM parseInt? with
    | Option.none => ({ st with sh := sh1 }, t1, ShowResult.error)
    | some ints =>
      match rowsFirst? (wsGet ws outputLabelCells) with
      | Option.none =>
        ({ st with sh := sh1 }, t1 ++ [Op.remoteRead "M2:M13"], ShowResult.error)
      | some labels =>
        let t2 := t1 ++ [Op.remoteRead "M2:M13", Op.remoteRead "O2:O13"]
        match rowsFirst? (wsGet ws outputValueCells) with
        | Option.none => ({ st with sh := sh1 }, t2, ShowResult.error)
        | some values =>
          let pairs := labels.zip values
          if ints.length = 6 then
            ({ sh := sh1, cache := _save_cache st.cache user_id ⟨ints, pairs, tab⟩ },
             t2 ++ [Op.cacheSave, Op.remoteRead "J5", Op.remoteRead "J2"],
             ShowResult.shown ints pairs (ws "J5") (ws "J2"))
          else ({ st with sh := sh1 }, t2, ShowResult.error)

/-- BloodborneCog.bb_show: load the cache row; with no row and no fresh
flag reply with the user-actionable not-found message; in fresh mode (or
with a row missing under fresh) run the fresh branch; otherwise serve
the cached inputs and results, still fetching the user worksheet to read
level J5 and origin J2. -/
def bb_show (st : BotState) (user_id : ℕ) (fresh : Bool) :
    BotState × List Op × ShowResult :=
  match _load_cache st user_id with
  | Option.none =>
    if fresh then bbShowFresh st user_id
    else (st, [Op.cacheLoad], ShowResult.notFound "No cached build yet. Use `/bb_set` first.")
  | some c =>
    if fresh then bbShowFresh st user_id
    else
      match _ensure_user_tab st.sh user_id with
      | (Option.none, te) => (st, Op.cacheLoad :: te, ShowResult.error)
      | (some (sh1, tab), te) =>
        let ws := (sh1.sheets tab).getD (fun _ => "")
        ({ st with sh := sh1 },
         Op.cacheLoad :: te ++ [Op.remoteRead "J5", Op.remoteRead "J2"],
         ShowResult.shown c.inputs c.results (ws "J5") (ws "J2"))

/-- BloodborneCog.bb_delete: only when a cache row exists, delete the
worksheet named in the row (a missing worksheet is swallowed) and the
cache row; with no cache row nothing is touched and the no-tab/cache
message is returned. -/
def bb_delete (st : BotState) (user_id : ℕ) : BotState × List Op × String :=
  match _load_cache st user_id with
  | some c =>
    let step := match st.sh.sheets c.sheet_tab with
      | some _ => (shDelete st.sh c.sheet_tab,
          [Op.fetchTab c.sheet_tab, Op.deleteSheet c.sheet_tab])
      | Option.none => (st.sh, [Op.fetchTab c.sheet_tab])
    ({ sh := step.1, cache := fun u => if u = toString user_id then Option.none else st.cache u },
     Op.cacheLoad :: step.2 ++ [Op.cacheDelete],
     "Your Bloodborne sheet tab and cache have been deleted.")
  | Option.none => (st, [Op.cacheLoad], "No personal tab/cache found.")

/-- Rune names from Rune Data A2:A67 (non-empty cells). -/
def _get_rune_choices (ws : Worksheet) : List String :=
  (wsGet ws (colRegion "A" 2 67)).filter (fun s => s != "")

/-- Oath names from Rune Data A68:A73. -/
def _get_oath_choices (ws : Worksheet) : List String :=
  (wsGet ws (colRegion "A" 68 73)).filter (fun s => s != "")

/-- Head armor from Armor Data A2:A37. -/
def _get_head_armor_choices (ws : Worksheet) : List String :=
  (wsGet ws (colRegion "A" 2 37)).filter (fun s => s != "")

/-- Chest armor from Armor Data A38:A72. -/
def _get_chest_armor_choices (ws : Worksheet) : List String :=
  (wsGet ws (colRegion "A" 38 72)).filter (fun s => s != "")

/-- Arms armor from Armor Data A73:A99. -/
def _get_arms_armor_choices (ws : Worksheet) : List String :=
  (wsGet ws (colRegion "A" 73 99)).filter (fun s => s != "")

/-- Legs armor from Armor Data A100:A131. -/
def _get_legs_armor_choices (ws : Worksheet) : List String :=
  (wsGet ws (colRegion "A" 100 131)).filter (fun s => s != "")

/-- Weapons from Weapon Data A2:A43. -/
def _get_weapon_choices (ws : Worksheet) : List String :=
  (wsGet ws (colRegion "A" 2 43)).filter (fun s => s != "")

/-- Gems from Weapon Data AJ2:AJ32. -/
def _get_gem_choices (ws : Worksheet) : List String :=
  (wsGet ws (colRegion "AJ" 2 32)).filter (fun s => s != "")

/-- Column letter for 0-based column index (A=0, ..., Z=25, AA=26, ...),
enough for the B..BN row used by attack choices. -/
def colLetter (n : ℕ) : String :=
  if n < 26 then String.mk [Char.ofNat (65 + n)]
  else String.mk [Char.ofNat (64 + n / 26), Char.ofNat (65 + n % 26)]

/-- Cells of the attack row B45:BN45. -/
def attackCells : List String := (List.range 65).map (fun i => colLetter (1 + i) ++ "45")

/-- Attacks: non-empty cells of Weapon Data B45:BN45. -/
def _get_attack_choices (ws : Worksheet) : List String :=
  (wsGet ws attackCells).filter (fun s => s != "")

/-- One validation check: a provided value not in its reference list
contributes "<label>: <value>" to the bad list. -/
def checkField (label : String) (v : Option String) (valid : List String) :
    List String :=
  match v with
  | some s => if s ∈ valid then [] else [label ++ ": " ++ s]
  | Option.none => []

/-- The bad list built by bb_gear, in source order. -/
def gearBad (runes oaths heads chests armsL legsL : List String)
    (rune1 rune2 rune3 oath head chest arms legs : Option String) : List String :=
  checkField "Rune1" rune1 runes ++ checkField "Rune2" rune2 runes ++
  checkField "Rune3" rune3 runes ++ checkField "Oath" oath oaths ++
  checkField "Head" head heads ++ checkField "Chest" chest chests ++
  checkField "Arms" arms armsL ++ checkField "Legs" legs legsL

/-- The bad list built by bb_weapon, in source order (weapon, attack,
then the nine gem value fields). -/
def weaponBad (weapons attacks gems : List String)
    (weapon attack g1p g1s g1c g2p g2s g2c g3p g3s g3c : Option String) :
    List String :=
  checkField "Weapon" weapon weapons ++ checkField "Attack" attack attacks ++
  checkField "Gem 1 Primary" g1p gems ++ checkField "Gem 1 Secondary" g1s gems ++
  checkField "Gem 1 Curse/Tertiary" g1c gems ++
  checkField "Gem 2 Primary" g2p gems ++ checkField "Gem 2 Secondary" g2s gems ++
  checkField "Gem 2 Curse/Tertiary" g2c gems ++
  checkField "Gem 3 Primary" g3p gems ++ checkField "Gem 3 Secondary" g3s gems ++
  checkField "Gem 3 Curse/Tertiary" g3c gems

/-- Outcome of bb_gear / bb_weapon (embed rendering is out of scope;
ok carries the re-read sheet values shown to the user). -/
inductive CmdOutcome where
  | invalid (bad : List String)
  | ok (payload : List String) (pairs : List (String × String))
  | error
deriving DecidableEq, Repr

/-- BloodborneCog.bb_gear: provision, read the six reference lists, and
validate every provided field; on any offending field reply with the
full bad list and write nothing; otherwise _set_gear then re-read Q2:Q9
and the computed gear table for display. -/
def bb_gear (st : BotState) (user_id : ℕ)
    (rune1 rune2 rune3 oath head chest arms legs : Option String) :
    BotState × List Op × CmdOutcome :=
  match _ensure_user_tab st.sh user_id with
  | (Option.none, te) => (st, te, CmdOutcome.error)
  | (some (sh1, tab), te) =>
    match sh1.sheets "Rune Data", sh1.sheets "Armor Data" with
    | some runeWs, some armorWs =>
      let tRef := [Op.remoteRead "Rune Data!A2:A67", Op.remoteRead "Rune Data!A68:A73",
        Op.remoteRead "Armor Data!A2:A37", Op.remoteRead "Armor Data!A38:A72",
        Op.remoteRead "Armor Data!A73:A99", Op.remoteRead "Armor Data!A100:A131"]
      let bad := gearBad (_get_rune_choices runeWs) (_get_oath_choices runeWs)
        (_get_head_armor_choices armorWs) (_get_chest_armor_choices armorWs)
        (_get_arms_armor_choices armorWs) (_get_legs_armor_choices armorWs)
        rune1 rune2 rune3 oath head chest arms legs
      if bad ≠ [] then ({ st with sh := sh1 }, te ++ tRef, CmdOutcome.invalid bad)
      else
        let ws := (sh1.sheets tab).getD (fun _ => "")
        let r := _set_gear ws rune1 rune2 rune3 oath head chest arms legs
        let sh2 := shUpdate sh1 tab r.1
        let q8 := ((wsGet r.1 gearCells) ++ List.replicate 8 "").take 8
        ({ st with sh := sh2 },
         te ++ tRef ++ r.2 ++ [Op.remoteRead "Q2:Q9", Op.remoteRead "T2",
           Op.remoteRead "V2", Op.remoteRead "W2", Op.remoteRead "T4:T11",
           Op.remoteRead "U4:W11"],
         CmdOutcome.ok q8 [])
    | _, _ => (st, te, CmdOutcome.error)

/-- BloodborneCog.bb_weapon: provision, read the three reference lists,
validate all provided fields; on any offending field reply with the full
bad list and write nothing; otherwise _set_weapon_gems_attack (a kind
tuple is always passed) then re-read the loadout and damage cells. -/
def bb_weapon (st : BotState) (user_id : ℕ)
    (weapon attack g1p g1s g1c g2p g2s g2c g3p g3s g3c : Option String)
    (k1 k2 k3 : Option String) : BotState × List Op × CmdOutcome :=
  match _ensure_user_tab st.sh user_id with
  | (Option.none, te) => (st, te, CmdOutcome.error)
  | (some (sh1, tab), te) =>
    match sh1.sheets "Weapon Data" with
    | some weaponWs =>
      let tRef := [Op.remoteRead "Weapon Data!A2:A43",
        Op.remoteRead "Weapon Data!AJ2:AJ32", Op.remoteRead "Weapon Data!B45:BN45"]
      let bad := weaponBad (_get_weapon_choices weaponWs)
        (_get_attack_choices weaponWs) (_get_gem_choices weaponWs)
        weapon attack g1p g1s g1c g2p g2s g2c g3p g3s g3c
      if bad ≠ [] then ({ st with sh := sh1 }, te ++ tRef, CmdOutcome.invalid bad)
      else
        let ws := (sh1.sheets tab).getD (fun _ => "")
        let r := _set_weapon_gems_attack ws weapon
          [g1p, g1s, g1c, g2p, g2s, g2c, g3p, g3s, g3c] attack (some (k1, k2, k3))
        let sh2 := shUpdate sh1 tab r.1
        let gems_now := ((wsGet r.1 gemCells) ++ List.replicate 9 "").take 9
        ({ st with sh := sh2 },
         te ++ tRef ++ r.2 ++ [Op.remoteRead "Q17", Op.remoteRead "R19",
           Op.remoteRead "S21:S29", Op.remoteRead "Q23", Op.remoteRead "Q26",
           Op.remoteRead "Q29", Op.remoteRead "U17", Op.remoteRead "U43"],
         CmdOutcome.ok (r.1 "Q17" :: r.1 "R19" :: gems_now)
           [("U17", r.1 "U17"), ("U43", r.1 "U43")])
    | Option.none => (st, te, CmdOutcome.error)

/-- A blank template worksheet. -/
def templateWs : Worksheet := fun _ => ""

/-- A populated personal worksheet for user 42. -/
def ws42 : Worksheet := fun c =>
  if c = "L8" then "10" else if c = "L9" then "11" else if c = "L10" then "12"
  else if c = "L11" then "13" else if c = "L12" then "14" else if c = "L13" then "15"
  else if c = "J5" then "120" else if c = "J2" then "Milquetoast"
  else if c = "M2" then "Health:" else if c = "O2" then "1500" else ""

/-- A spreadsheet holding only the template. -/
def shProv : Spreadsheet :=
  ⟨fun t => if t = "Character Sheet" then some templateWs else Option.none⟩

/-- A reference worksheet whose A2 cell holds one rune name. -/
def refWs : Worksheet := fun c => if c = "A2" then "Clawmark" else ""

/-- Sheets for forthcoming command states: user tab, template and the
three reference tabs. -/
def shFull : Spreadsheet :=
  ⟨fun t =>
    if t = "u_42" then some ws42
    else if t = "Character Sheet" then some templateWs
    else if t = "Rune Data" then some refWs
    else if t = "Armor Data" then some templateWs
    else if t = "Weapon Data" then some templateWs
    else Option.none⟩

/-- The cache row user 42 would have after a fresh show. -/
def cacheRec42 : CacheRecord := ⟨[10, 11, 12, 13, 14, 15], [("Health:", "1500")], "u_42"⟩

/-- State with sheet and cache for user 42. -/
def stCached : BotState :=
  ⟨shFull, fun u => if u = "42" then some cacheRec42 else Option.none⟩

/-- State with a provisioned sheet for user 42 but no cache row. -/
def stNoCache : BotState := ⟨shFull, fun _ => Option.none⟩

/-! ### Lemmas and claim theorems -/

lemma parseDecimal_375 : parseDecimal? "37.5" = some (75 / 2 : ℚ) := by
  have h : parseDecimal? "37.5"
      = some ((digitsVal ['3', '7'] : ℚ) + (digitsVal ['5'] : ℚ) / (10 : ℚ) ^ 1) := rfl
  rw [h]
  norm_num [show digitsVal ['3', '7'] = 37 from by decide,
    show digitsVal ['5'] = 5 from by decide]

lemma parseDecimal_1234 : parseDecimal? (stripCommas "1,234") = some (1234 : ℚ) := by
  have h : parseDecimal? (stripCommas "1,234")
      = some ((digitsVal ['1', '2', '3', '4'] : ℚ)) := rfl
  rw [h]
  norm_num [show digitsVal ['1', '2', '3', '4'] = 1234 from by decide]

lemma parseDecimal_50000 : parseDecimal? (stripCommas "50,000") = some (50000 : ℚ) := by
  have h : parseDecimal? (stripCommas "50,000")
      = some ((digitsVal ['5', '0', '0', '0', '0'] : ℚ)) := rfl
  rw [h]
  norm_num [show digitsVal ['5', '0', '0', '0', '0'] = 50000 from by decide]

/-- Evaluation of _compute_h2k on a positive parsed damage string and a
nonzero numeric health. -/
lemma compute_h2k_eval (s : String) (hv d : ℚ) (hs : s ≠ "")
    (hp : parseDecimal? (stripCommas s) = some d) (hd : 0 < d) (hh : hv ≠ 0) :
    _compute_h2k (PyVal.str s) (PyVal.num hv) = some ⌈hv / d⌉ := by
  unfold _compute_h2k
  have h1 : (PyVal.str s).truthy = true := by simp [PyVal.truthy, hs]
  have h2 : (PyVal.num hv).truthy = true := by simp [PyVal.truthy, hh]
  have h3 : pyFloat? (PyVal.str s) = some d := hp
  rw [h1, h2, h3]
  simp [not_le.mpr hd]

lemma dropTrailingEmpty_eq_nil_getD (l : List String) (i : ℕ)
    (h : dropTrailingEmpty l = []) : l.getD i "" = "" := by
  induction l generalizing i with
  | nil => simp
  | cons x xs ih =>
    unfold dropTrailingEmpty at h
    rcases hxs : dropTrailingEmpty xs with _ | ⟨y, ys⟩
    · rw [hxs] at h
      by_cases hx : x = ""
      · cases i with
        | zero => simpa using hx
        | succ j => simpa using ih j hxs
      · simp [hx] at h
    · rw [hxs] at h
      simp at h

lemma dropTrailingEmpty_getD (l : List String) (i : ℕ) :
    (dropTrailingEmpty l).getD i "" = l.getD i "" := by
  induction l generalizing i with
  | nil => rfl
  | cons x xs ih =>
    unfold dropTrailingEmpty
    rcases hxs : dropTrailingEmpty xs with _ | ⟨y, ys⟩
    · by_cases hx : x = ""
      · simp only [hx, if_pos rfl]
        cases i with
        | zero => simp [hx]
        | succ j => simpa using (dropTrailingEmpty_eq_nil_getD xs j hxs).symm
      · simp only [if_neg hx]
        cases i with
        | zero => simp
        | succ j => simpa using (dropTrailingEmpty_eq_nil_getD xs j hxs).symm
    · cases i with
      | zero => simp
      | succ j =>
        have := ih j
        rw [hxs] at this
        simpa using this

lemma wsGet_getD (ws : Worksheet) (cells : List String) (i : ℕ) :
    (wsGet ws cells).getD i "" = (cells.map ws).getD i "" :=
  dropTrailingEmpty_getD _ i

lemma wsGet_getElem (ws : Worksheet) (cells : List String) (i : ℕ) :
    (wsGet ws cells)[i]?.getD "" = (cells.map ws)[i]?.getD "" := by
  have := wsGet_getD ws cells i
  simpa [List.getD_eq_getElem?_getD] using this

lemma optWrite_apply_ne (ws : Worksheet) (addr : String) (o : Option String)
    (f : String → String) (c : String) (h : c ≠ addr) :
    optWrite ws addr o f c = ws c := by
  cases o <;> simp [optWrite, wsUpdate, h]

lemma range9_map (f : ℕ → String) :
    (List.range 9).map f = [f 0, f 1, f 2, f 3, f 4, f 5, f 6, f 7, f 8] := rfl

lemma pad9_getElem (g : List (Option String)) (i : ℕ)
    (h : i < (g ++ [Option.none, Option.none, Option.none, Option.none, Option.none,
      Option.none, Option.none, Option.none, Option.none]).length) :
    (g ++ [Option.none, Option.none, Option.none, Option.none, Option.none,
      Option.none, Option.none, Option.none, Option.none])[i]
      = g[i]?.getD Option.none := by
  rcases lt_or_ge i g.length with hlt | hge
  · rw [List.getElem_append_left hlt, List.getElem?_eq_getElem hlt]
    rfl
  · rw [List.getElem_append_right hge, List.getElem?_eq_none hge]
    simp only [show ([Option.none, Option.none, Option.none, Option.none, Option.none,
      Option.none, Option.none, Option.none, Option.none] : List (Option String))
      = List.replicate 9 Option.none from rfl, List.getElem_replicate]
    rfl

/-- The value of each gem cell S21:S29 after _set_weapon_gems_attack is
the provided gem for that slot when one was given, else the prior cell
value, independently of the weapon/attack/kind arguments. -/
lemma set_wga_gem_values (ws : Worksheet) (w a : Option String)
    (g : List (Option String))
    (k : Option (Option String × Option String × Option String)) :
    (_set_weapon_gems_attack ws w g a k).1 "S21"
        = (g.getD 0 Option.none).getD (ws "S21") ∧
    (_set_weapon_gems_attack ws w g a k).1 "S22"
        = (g.getD 1 Option.none).getD (ws "S22") ∧
    (_set_weapon_gems_attack ws w g a k).1 "S23"
        = (g.getD 2 Option.none).getD (ws "S23") ∧
    (_set_weapon_gems_attack ws w g a k).1 "S24"
        = (g.getD 3 Option.none).getD (ws "S24") ∧
    (_set_weapon_gems_attack ws w g a k).1 "S25"
        = (g.getD 4 Option.none).getD (ws "S25") ∧
    (_set_weapon_gems_attack ws w g a k).1 "S26"
        = (g.getD 5 Option.none).getD (ws "S26") ∧
    (_set_weapon_gems_attack ws w g a k).1 "S27"
        = (g.getD 6 Option.none).getD (ws "S27") ∧
    (_set_weapon_gems_attack ws w g a k).1 "S28"
        = (g.getD 7 Option.none).getD (ws "S28") ∧
    (_set_weapon_gems_attack ws w g a k).1 "S29"
        = (g.getD 8 Option.none).getD (ws "S29") := by
  rcases k with _ | ⟨k1, k2, k3⟩ <;>
    refine ⟨?_, ?_, ?_, ?_, ?_, ?_, ?_, ?_, ?_⟩ <;>
    simp [_set_weapon_gems_attack, range9_map, writeRegion, wsUpdate, gemCells,
      optWrite_apply_ne, wsGet_getElem, pad9_getElem]

/-- The value of each gear cell Q2:Q9 after _set_gear is the provided
field when one was given, else the prior cell value. -/
lemma set_gear_values (ws : Worksheet)
    (rune1 rune2 rune3 oath head chest arms legs : Option String) :
    (_set_gear ws rune1 rune2 rune3 oath head chest arms legs).1 "Q2"
        = rune1.getD (ws "Q2") ∧
    (_set_gear ws rune1 rune2 rune3 oath head chest arms legs).1 "Q3"
        = rune2.getD (ws "Q3") ∧
    (_set_gear ws rune1 rune2 rune3 oath head chest arms legs).1 "Q4"
        = rune3.getD (ws "Q4") ∧
    (_set_gear ws rune1 rune2 rune3 oath head chest arms legs).1 "Q5"
        = oath.getD (ws "Q5") ∧
    (_set_gear ws rune1 rune2 rune3 oath head chest arms legs).1 "Q6"
        = head.getD (ws "Q6") ∧
    (_set_gear ws rune1 rune2 rune3 oath head chest arms legs).1 "Q7"
        = chest.getD (ws "Q7") ∧
    (_set_gear ws rune1 rune2 rune3 oath head chest arms legs).1 "Q8"
        = arms.getD (ws "Q8") ∧
    (_set_gear ws rune1 rune2 rune3 oath head chest arms legs).1 "Q9"
        = legs.getD (ws "Q9") := by
  refine ⟨?_, ?_, ?_, ?_, ?_, ?_, ?_, ?_⟩ <;>
    simp [_set_gear, gearCells, writeRegion, wsUpdate, wsGet_getElem]

lemma parseDecimal_1234_plain : parseDecimal? "1234" = some (1234 : ℚ) := by
  have h : parseDecimal? "1234"
      = some ((digitsVal ['1', '2', '3', '4'] : ℚ)) := rfl
  rw [h]
  norm_num [show digitsVal ['1', '2', '3', '4'] = 1234 from by decide]

/-- C2: in _set_gear (region Q2:Q9) and in the 9-cell gem block S21:S29
of _set_weapon_gems_attack, every field passed as None leaves its cell
exactly as it was immediately before the write, and every provided field
overwrites its cell, whatever the other arguments of the same call are. -/
theorem merge_update_frame (ws : Worksheet)
    (rune1 rune2 rune3 oath head chest arms legs weapon attack : Option String)
    (gems : List (Option String))
    (k : Option (Option String × Option String × Option String)) :
    ((rune1 = Option.none →
        (_set_gear ws rune1 rune2 rune3 oath head chest arms legs).1 "Q2" = ws "Q2") ∧
      (∀ v, rune1 = some v →
        (_set_gear ws rune1 rune2 rune3 oath head chest arms legs).1 "Q2" = v)) ∧
    ((rune2 = Option.none →
        (_set_gear ws rune1 rune2 rune3 oath head chest arms legs).1 "Q3" = ws "Q3") ∧
      (∀ v, rune2 = some v →
        (_set_gear ws rune1 rune2 rune3 oath head chest arms legs).1 "Q3" = v)) ∧
    ((rune3 = Option.none →
        (_set_gear ws rune1 rune2 rune3 oath head chest arms legs).1 "Q4" = ws "Q4") ∧
      (∀ v, rune3 = some v →
        (_set_gear ws rune1 rune2 rune3 oath head chest arms legs).1 "Q4" = v)) ∧
    ((oath = Option.none →
        (_set_gear ws rune1 rune2 rune3 oath head chest arms legs).1 "Q5" = ws "Q5") ∧
      (∀ v, oath = some v →
        (_set_gear ws rune1 rune2 rune3 oath head chest arms legs).1 "Q5" = v)) ∧
    ((head = Option.none →
        (_set_gear ws rune1 rune2 rune3 oath head chest arms legs).1 "Q6" = ws "Q6") ∧
      (∀ v, head = some v →
        (_set_gear ws rune1 rune2 rune3 oath head chest arms legs).1 "Q6" = v)) ∧
    ((chest = Option.none →
        (_set_gear ws rune1 rune2 rune3 oath head chest arms legs).1 "Q7" = ws "Q7") ∧
      (∀ v, chest = some v →
        (_set_gear ws rune1 rune2 rune3 oath head chest arms legs).1 "Q7" = v)) ∧
    ((arms = Option.none →
        (_set_gear ws rune1 rune2 rune3 oath head chest arms legs).1 "Q8" = ws "Q8") ∧
      (∀ v, arms = some v →
        (_set_gear ws rune1 rune2 rune3 oath head chest arms legs).1 "Q8" = v)) ∧
    ((legs = Option.none →
        (_set_gear ws rune1 rune2 rune3 oath head chest arms legs).1 "Q9" = ws "Q9") ∧
      (∀ v, legs = some v →
        (_set_gear ws rune1 rune2 rune3 oath head chest arms legs).1 "Q9" = v)) ∧
    ((gems.getD 0 Option.none = Option.none →
        (_set_weapon_gems_attack ws weapon gems attack k).1 "S21" = ws "S21") ∧
      (∀ v, gems.getD 0 Option.none = some v →
        (_set_weapon_gems_attack ws weapon gems attack k).1 "S21" = v)) ∧
    ((gems.getD 1 Option.none = Option.none →
        (_set_weapon_gems_attack ws weapon gems attack k).1 "S22" = ws "S22") ∧
      (∀ v, gems.getD 1 Option.none = some v →
        (_set_weapon_gems_attack ws weapon gems attack k).1 "S22" = v)) ∧
    ((gems.getD 2 Option.none = Option.none →
        (_set_weapon_gems_attack ws weapon gems attack k).1 "S23" = ws "S23") ∧
      (∀ v, gems.getD 2 Option.none = some v →
        (_set_weapon_gems_attack ws weapon gems attack k).1 "S23" = v)) ∧
    ((gems.getD 3 Option.none = Option.none →
        (_set_weapon_gems_attack ws weapon gems attack k).1 "S24" = ws "S24") ∧
      (∀ v, gems.getD 3 Option.none = some v →
        (_set_weapon_gems_attack ws weapon gems attack k).1 "S24" = v)) ∧
    ((gems.getD 4 Option.none = Option.none →
        (_set_weapon_gems_attack ws weapon gems attack k).1 "S25" = ws "S25") ∧
      (∀ v, gems.getD 4 Option.none = some v →
        (_set_weapon_gems_attack ws weapon gems attack k).1 "S25" = v)) ∧
    ((gems.getD 5 Option.none = Option.none →
        (_set_weapon_gems_attack ws weapon gems attack k).1 "S26" = ws "S26") ∧
      (∀ v, gems.getD 5 Option.none = some v →
        (_set_weapon_gems_attack ws weapon gems attack k).1 "S26" = v)) ∧
    ((gems.getD 6 Option.none = Option.none →
        (_set_weapon_gems_attack ws weapon gems attack k).1 "S27" = ws "S27") ∧
      (∀ v, gems.getD 6 Option.none = some v →
        (_set_weapon_gems_attack ws weapon gems attack k).1 "S27" = v)) ∧
    ((gems.getD 7 Option.none = Option.none →
        (_set_weapon_gems_attack ws weapon gems attack k).1 "S28" = ws "S28") ∧
      (∀ v, gems.getD 7 Option.none = some v →
        (_set_weapon_gems_attack ws weapon gems attack k).1 "S28" = v)) ∧
    ((gems.getD 8 Option.none = Option.none →
        (_set_weapon_gems_attack ws weapon gems attack k).1 "S29" = ws "S29") ∧
      (∀ v, gems.getD 8 Option.none = some v →
        (_set_weapon_gems_attack ws weapon gems attack k).1 "S29" = v)) := by
  obtain ⟨g1, g2, g3, g4, g5, g6, g7, g8⟩ :=
    set_gear_values ws rune1 rune2 rune3 oath head chest arms legs
  obtain ⟨s1, s2, s3, s4, s5, s6, s7, s8, s9⟩ :=
    set_wga_gem_values ws weapon attack gems k
  exact ⟨⟨fun h => by rw [g1, h]; rfl, fun v h => by rw [g1, h]; rfl⟩,
    ⟨fun h => by rw [g2, h]; rfl, fun v h => by rw [g2, h]; rfl⟩,
    ⟨fun h => by rw [g3, h]; rfl, fun v h => by rw [g3, h]; rfl⟩,
    ⟨fun h => by rw [g4, h]; rfl, fun v h => by rw [g4, h]; rfl⟩,
    ⟨fun h => by rw [g5, h]; rfl, fun v h => by rw [g5, h]; rfl⟩,
    ⟨fun h => by rw [g6, h]; rfl, fun v h => by rw [g6, h]; rfl⟩,
    ⟨fun h => by rw [g7, h]; rfl, fun v h => by rw [g7, h]; rfl⟩,
    ⟨fun h => by rw [g8, h]; rfl, fun v h => by rw [g8, h]; rfl⟩,
    ⟨fun h => by rw [s1, h]; rfl, fun v h => by rw [s1, h]; rfl⟩,
    ⟨fun h => by rw [s2, h]; rfl, fun v h => by rw [s2, h]; rfl⟩,
    ⟨fun h => by rw [s3, h]; rfl, fun v h => by rw [s3, h]; rfl⟩,
    ⟨fun h => by rw [s4, h]; rfl, fun v h => by rw [s4, h]; rfl⟩,
    ⟨fun h => by rw [s5, h]; rfl, fun v h => by rw [s5, h]; rfl⟩,
    ⟨fun h => by rw [s6, h]; rfl, fun v h => by rw [s6, h]; rfl⟩,
    ⟨fun h => by rw [s7, h]; rfl, fun v h => by rw [s7, h]; rfl⟩,
    ⟨fun h => by rw [s8, h]; rfl, fun v h => by rw [s8, h]; rfl⟩,
    ⟨fun h => by rw [s9, h]; rfl, fun v h => by rw [s9, h]; rfl⟩⟩

/-- C2 witness: concrete run mixing set and unset fields in the same
call, on the worksheet whose every cell holds its own address. -/
theorem merge_update_frame_witness :
    (_set_gear wsId Option.none (some "RuneB") Option.none Option.none Option.none
      Option.none Option.none Option.none).1 "Q2" = wsId "Q2" ∧
    (_set_gear wsId Option.none (some "RuneB") Option.none Option.none Option.none
      Option.none Option.none Option.none).1 "Q3" = "RuneB" ∧
    (_set_weapon_gems_attack wsId (some "Saw Cleaver") [Option.none, some "GemX"]
      (some "R1") (some (Option.none, some "Curse", Option.none))).1 "S21" = wsId "S21" ∧
    (_set_weapon_gems_attack wsId (some "Saw Cleaver") [Option.none, some "GemX"]
      (some "R1") (some (Option.none, some "Curse", Option.none))).1 "S22" = "GemX" := by
  obtain ⟨p1, p2, _, _, _, _, _, _, p9, p10, _⟩ :=
    merge_update_frame wsId Option.none (some "RuneB") Option.none Option.none
      Option.none Option.none Option.none Option.none (some "Saw Cleaver") (some "R1")
      [Option.none, some "GemX"] (some (Option.none, some "Curse", Option.none))
  exact ⟨p1.1 rfl, p2.2 "RuneB" rfl, p9.1 rfl, p10.2 "GemX" rfl⟩

/-- C5: a merge-write performs exactly one remote read and one remote
write of its region: _set_gear's whole trace is one read then one write
of Q2:Q9, and within _set_weapon_gems_attack the operations touching the
gem region S21:S29 are exactly one read followed by one full-region
write, for every combination of arguments. -/
theorem region_io_single_read_write (ws : Worksheet)
    (rune1 rune2 rune3 oath head chest arms legs weapon attack : Option String)
    (gems : List (Option String))
    (k : Option (Option String × Option String × Option String)) :
    (_set_gear ws rune1 rune2 rune3 oath head chest arms legs).2
        = [Op.remoteRead "Q2:Q9", Op.remoteWrite "Q2:Q9"] ∧
    (_set_weapon_gems_attack ws weapon gems attack k).2.filter (opOnRange "S21:S29")
        = [Op.remoteRead "S21:S29", Op.remoteWrite "S21:S29"] := by
  refine ⟨rfl, ?_⟩
  rcases k with _ | ⟨k1, k2, k3⟩
  · cases weapon <;> cases attack <;> rfl
  · cases weapon <;> cases attack <;> cases k1 <;> cases k2 <;> cases k3 <;> rfl

/-- C10: _compute_h2k tests the health value for Python falsiness
together with the missing-value check, so a zero health (or an empty
string health) yields unknown (None) for every damage input. -/
theorem compute_h2k_falsy_health (d : PyVal) :
    _compute_h2k d (PyVal.num 0) = Option.none ∧
    _compute_h2k d (PyVal.str "") = Option.none := by
  constructor <;> (unfold _compute_h2k; simp [PyVal.truthy])

/-- C3 counterexample: at damage "37.5" and health 0 — a present,
numeric health and a positive numeric damage — the code returns unknown
(None), while the claim's otherwise-branch value ceiling(0 / 37.5) is 0,
so the claim as stated fails at this input. -/
theorem compute_h2k_zero_health_ce :
    _compute_h2k (PyVal.str "37.5") (PyVal.num 0) = Option.none ∧
    some ⌈(0 : ℚ) / (75 / 2 : ℚ)⌉ = some (0 : ℤ) ∧
    (Option.none : Option ℤ) ≠ some ⌈(0 : ℚ) / (75 / 2 : ℚ)⌉ := by
  refine ⟨by decide, by norm_num, by simp⟩

/-- C3 (amended): _compute_h2k returns unknown (None) when the damage is
falsy, unparseable or ≤ 0, when the health is falsy (None, zero or empty
string), and when the health is a string (the division raises and is
caught); otherwise, for a parsed positive damage and a nonzero numeric
health, it returns ceiling(health / damage).  In particular
computeHitsToKill(37.5, 502) = 14, computeHitsToKill(0, 502) = unknown
and computeHitsToKill(37.5, None) = unknown. -/
theorem compute_h2k_spec :
    (∀ d h : PyVal, d.truthy = false → _compute_h2k d h = Option.none) ∧
    (∀ d h : PyVal, h.truthy = false → _compute_h2k d h = Option.none) ∧
    (∀ d h : PyVal, pyFloat? d = Option.none → _compute_h2k d h = Option.none) ∧
    (∀ (d h : PyVal) (q : ℚ), pyFloat? d = some q → q ≤ 0 →
        _compute_h2k d h = Option.none) ∧
    (∀ (d : PyVal) (s : String), _compute_h2k d (PyVal.str s) = Option.none) ∧
    (∀ (d : PyVal) (q hv : ℚ), pyFloat? d = some q → 0 < q → hv ≠ 0 →
        _compute_h2k d (PyVal.num hv) = some ⌈hv / q⌉) ∧
    _compute_h2k (PyVal.str "37.5") (PyVal.num 502) = some 14 ∧
    _compute_h2k (PyVal.num 0) (PyVal.num 502) = Option.none ∧
    _compute_h2k (PyVal.str "37.5") PyVal.none = Option.none := by
  refine ⟨?_, ?_, ?_, ?_, ?_, ?_, ?_, by decide, by decide⟩
  · intro d h hd
    unfold _compute_h2k
    rw [hd]
    simp
  · intro d h hh
    unfold _compute_h2k
    rw [hh]
    simp
  · intro d h hp
    unfold _compute_h2k
    rw [hp]
    cases hc : (!d.truthy || !h.truthy) <;> simp
  · intro d h q hq hle
    unfold _compute_h2k
    rw [hq]
    cases hc : (!d.truthy || !h.truthy) <;> simp [hle]
  · intro d s
    unfold _compute_h2k
    cases hc : (!d.truthy || !(PyVal.str s).truthy)
    · cases hp : pyFloat? d <;> simp
    · simp
  · intro d q hv hq h0 hhv
    have hdt : d.truthy = true := by
      cases d with
      | none => exact absurd hq (by rw [show pyFloat? PyVal.none = Option.none from rfl]; simp)
      | str s =>
        by_cases hs : s = ""
        · subst hs
          exact absurd hq (by rw [show pyFloat? (PyVal.str "") = Option.none from rfl]; simp)
        · simp [PyVal.truthy, hs]
      | num q2 =>
        have hq2 : q2 = q := by simpa [pyFloat?] using hq
        subst hq2
        simp [PyVal.truthy]
        exact ne_of_gt h0
    unfold _compute_h2k
    rw [hdt, hq]
    simp [PyVal.truthy, hhv, not_le.mpr h0]
  · rw [compute_h2k_eval "37.5" 502 (75 / 2) (by decide) parseDecimal_375 (by norm_num)
      (by norm_num)]
    congr 1
    rw [Int.ceil_eq_iff]
    norm_num

/-- C3 witness: the amended theorem applied at concrete inputs, one per
hypothesis-bearing branch. -/
theorem compute_h2k_spec_witness :
    _compute_h2k PyVal.none (PyVal.num 502) = Option.none ∧
    _compute_h2k (PyVal.str "5") (PyVal.num 0) = Option.none ∧
    _compute_h2k (PyVal.str "abc") (PyVal.num 502) = Option.none ∧
    _compute_h2k (PyVal.str "0") (PyVal.num 502) = Option.none ∧
    _compute_h2k (PyVal.str "4") (PyVal.num 10) = some 3 := by
  have hparse0 : pyFloat? (PyVal.str "0") = some (0 : ℚ) := by
    rw [show pyFloat? (PyVal.str "0") = some ((digitsVal ['0'] : ℚ)) from rfl]
    norm_num [show digitsVal ['0'] = 0 from by decide]
  have hparse4 : pyFloat? (PyVal.str "4") = some (4 : ℚ) := by
    rw [show pyFloat? (PyVal.str "4") = some ((digitsVal ['4'] : ℚ)) from rfl]
    norm_num [show digitsVal ['4'] = 4 from by decide]
  refine ⟨compute_h2k_spec.1 _ _ (by decide),
    compute_h2k_spec.2.1 _ _ (by decide),
    compute_h2k_spec.2.2.1 _ _ (by decide),
    compute_h2k_spec.2.2.2.1 _ _ 0 hparse0 (by norm_num), ?_⟩
  rw [compute_h2k_spec.2.2.2.2.2.1 _ 4 10 hparse4 (by norm_num) (by norm_num)]
  congr 1
  rw [Int.ceil_eq_iff]
  norm_num

/-- C4 counterexample: when the enemy-health argument itself is a string
with thousands separators, _compute_h2k returns unknown (None) instead
of the claimed 41: the comma-stripping in _compute_h2k covers only the
damage argument. -/
theorem h2k_comma_health_ce :
    _compute_h2k (PyVal.str "1,234") (PyVal.str "50,000") = Option.none ∧
    _compute_h2k (PyVal.str "1,234") (PyVal.str "50,000") ≠ some 41 := by
  have h : _compute_h2k (PyVal.str "1,234") (PyVal.str "50,000") = Option.none :=
    compute_h2k_spec.2.2.2.2.1 _ _
  exact ⟨h, by rw [h]; simp⟩

/-- C4 (amended): thousands separators are tolerated in the damage
argument by _compute_h2k itself, and in the enemy-health value by
_read_enemy_health, which parses the health cell before the call; the
composition gives computeHitsToKill("1,234", parse("50,000")) = 41. -/
theorem h2k_comma_amended :
    _read_enemy_health (some "50,000") = some 50000 ∧
    _compute_h2k (PyVal.str "1,234") (PyVal.num 50000) = some 41 ∧
    (∀ h : PyVal, _compute_h2k (PyVal.str "1,234") h
        = _compute_h2k (PyVal.str "1234") h) := by
  refine ⟨?_, ?_, ?_⟩
  · rw [show _read_enemy_health (some "50,000")
        = parseDecimal? (stripCommas "50,000") from rfl, parseDecimal_50000]
  · rw [compute_h2k_eval "1,234" 50000 1234 (by decide) parseDecimal_1234 (by norm_num)
      (by norm_num)]
    congr 1
    rw [Int.ceil_eq_iff]
    norm_num
  · intro h
    unfold _compute_h2k
    rw [show pyFloat? (PyVal.str "1,234") = some (1234 : ℚ) from parseDecimal_1234,
      show pyFloat? (PyVal.str "1234") = some (1234 : ℚ) from parseDecimal_1234_plain,
      show (PyVal.str "1,234").truthy = true from by decide,
      show (PyVal.str "1234").truthy = true from by decide]

/-- C1: provisioning is idempotent: under a present template, the first
call returns the sheet named u_<id>; a second sequential call returns
the same name and the same spreadsheet state, its trace is the single
existence fetch (no duplication, no write); and when the personal sheet
already exists the call leaves the whole spreadsheet, and that sheet,
untouched. -/
theorem ensure_personal_sheet_idempotent (sh : Spreadsheet) (uid : ℕ)
    (hbase : (sh.sheets BASE_SHEET_TITLE).isSome = true) :
    ∃ sh1 : Spreadsheet,
      (_ensure_user_tab sh uid).1 = some (sh1, _user_tab_name uid) ∧
      _user_tab_name uid = "u_" ++ toString uid ∧
      (sh1.sheets (_user_tab_name uid)).isSome = true ∧
      (_ensure_user_tab sh1 uid).1 = some (sh1, _user_tab_name uid) ∧
      (_ensure_user_tab sh1 uid).2 = [Op.fetchTab (_user_tab_name uid)] ∧
      (∀ op ∈ (_ensure_user_tab sh1 uid).2, op.isRemoteWrite = false) ∧
      (∀ w, sh.sheets (_user_tab_name uid) = some w →
          sh1 = sh ∧ sh1.sheets (_user_tab_name uid) = some w) := by
  rcases htab : sh.sheets (_user_tab_name uid) with _ | w
  · obtain ⟨base, hb⟩ := Option.isSome_iff_exists.mp hbase
    refine ⟨shUpdate sh (_user_tab_name uid) base, ?_, rfl, ?_, ?_, ?_, ?_, ?_⟩
    · simp only [_ensure_user_tab, htab, hb]
    · simp [shUpdate]
    · simp [_ensure_user_tab, shUpdate]
    · simp [_ensure_user_tab, shUpdate]
    · simp only [_ensure_user_tab, shUpdate, if_pos rfl]
      intro op hop
      simp at hop
      subst hop
      rfl
    · simp [htab]
  · refine ⟨sh, ?_, rfl, ?_, ?_, ?_, ?_, ?_⟩
    · simp only [_ensure_user_tab, htab]
    · rw [htab]
      rfl
    · simp only [_ensure_user_tab, htab]
    · simp only [_ensure_user_tab, htab]
    · simp only [_ensure_user_tab, htab]
      intro op hop
      simp at hop
      subst hop
      rfl
    · exact fun w2 hw => ⟨rfl, htab.trans hw⟩

/-- C1 witness: the idempotence theorem run on the concrete spreadsheet
holding only the template, for user 42. -/
theorem ensure_personal_sheet_idempotent_witness :
    (shProv.sheets BASE_SHEET_TITLE).isSome = true ∧
    ∃ sh1 : Spreadsheet,
      (_ensure_user_tab shProv 42).1 = some (sh1, _user_tab_name 42) ∧
      (_ensure_user_tab sh1 42).1 = some (sh1, _user_tab_name 42) ∧
      (_ensure_user_tab sh1 42).2 = [Op.fetchTab (_user_tab_name 42)] := by
  obtain ⟨sh1, h1, _, _, h4, h5, _, _⟩ :=
    ensure_personal_sheet_idempotent shProv 42 rfl
  exact ⟨rfl, sh1, h1, h4, h5⟩

/-- C6 counterexample: with a cache row present and fresh = false,
bb_show still performs remote document calls: it fetches the user
worksheet and reads J5 and J2 (the source comments this fetch as
"ensure we can read J2/J5 even if using cache"). -/
theorem bb_show_cached_remote_ce :
    _load_cache stCached 42 = some cacheRec42 ∧
    (bb_show stCached 42 false).2.1
      = [Op.cacheLoad, Op.fetchTab "u_42", Op.remoteRead "J5", Op.remoteRead "J2"] ∧
    (bb_show stCached 42 false).2.1.filter Op.isRemote ≠ [] := by
  refine ⟨rfl, rfl, by decide⟩

/-- C6 (amended): in cached mode bb_show serves the snapshot inputs and
results from the cache row, performs no sheet region read, no remote
write and no cache write, and leaves the state untouched — but it does
fetch the user worksheet and remotely reads level J5 and origin J2. -/
theorem bb_show_cached_amended (st : BotState) (uid : ℕ) (c : CacheRecord)
    (ws : Worksheet) (hc : st.cache (toString uid) = some c)
    (htab : st.sh.sheets (_user_tab_name uid) = some ws) :
    (bb_show st uid false).1 = st ∧
    (bb_show st uid false).2.1
      = [Op.cacheLoad, Op.fetchTab (_user_tab_name uid),
         Op.remoteRead "J5", Op.remoteRead "J2"] ∧
    (bb_show st uid false).2.2
      = ShowResult.shown c.inputs c.results (ws "J5") (ws "J2") := by
  have he : _ensure_user_tab st.sh uid
      = (some (st.sh, _user_tab_name uid), [Op.fetchTab (_user_tab_name uid)]) := by
    simp only [_ensure_user_tab, htab]
  refine ⟨?_, ?_, ?_⟩ <;>
    simp [bb_show, _load_cache, hc, he, htab]

/-- C6 witness: the amended cached-mode theorem at the concrete cached
state for user 42. -/
theorem bb_show_cached_amended_witness :
    (bb_show stCached 42 false).1 = stCached ∧
    (bb_show stCached 42 false).2.1
      = [Op.cacheLoad, Op.fetchTab (_user_tab_name 42),
         Op.remoteRead "J5", Op.remoteRead "J2"] ∧
    (bb_show stCached 42 false).2.2
      = ShowResult.shown cacheRec42.inputs cacheRec42.results (ws42 "J5") (ws42 "J2") :=
  bb_show_cached_amended stCached 42 cacheRec42 ws42 rfl rfl

/-- C7: with no cache row, bb_show with fresh = false answers the
user-actionable not-found message without touching the sheet or cache
(its whole trace is the single cache load); with fresh = true, at a
worksheet whose L8:L13 parse as six ints and whose M2:M13/O2:O13 fetch
without an interior-empty row (an interior empty cell would make the
source's unguarded row[0] raise before any cache write), it reads the
sheet inputs and outputs directly, succeeds, and upserts the result
into the cache. -/
theorem bb_show_no_cache (st : BotState) (uid : ℕ) (ws : Worksheet)
    (ints : List ℤ) (pairs : List (String × String))
    (hc : st.cache (toString uid) = Option.none)
    (htab : st.sh.sheets (_user_tab_name uid) = some ws)
    (hints : (wsGet ws inputCells).mapM parseInt? = some ints)
    (hlen : ints.length = 6)
    (hout : _read_outputs ws = some pairs) :
    ((bb_show st uid false).2.2
        = ShowResult.notFound "No cached build yet. Use `/bb_set` first." ∧
      (bb_show st uid false).1 = st ∧
      (bb_show st uid false).2.1 = [Op.cacheLoad]) ∧
    ((bb_show st uid true).2.2
        = ShowResult.shown ints pairs (ws "J5") (ws "J2") ∧
      (bb_show st uid true).1.cache (toString uid)
        = some ⟨ints, pairs, _user_tab_name uid⟩ ∧
      Op.cacheSave ∈ (bb_show st uid true).2.1 ∧
      Op.remoteRead "L8:L13" ∈ (bb_show st uid true).2.1) := by
  have he : _ensure_user_tab st.sh uid
      = (some (st.sh, _user_tab_name uid), [Op.fetchTab (_user_tab_name uid)]) := by
    simp only [_ensure_user_tab, htab]
  obtain ⟨labels, values, hlab, hval, hpairs⟩ :
      ∃ labels values, rowsFirst? (wsGet ws outputLabelCells) = some labels ∧
        rowsFirst? (wsGet ws outputValueCells) = some values ∧
        pairs = labels.zip values := by
    unfold _read_outputs at hout
    rcases hlab : rowsFirst? (wsGet ws outputLabelCells) with _ | labels <;>
      rw [hlab] at hout
    · simp at hout
    · rcases hval : rowsFirst? (wsGet ws outputValueCells) with _ | values <;>
        rw [hval] at hout
      · simp at hout
      · exact ⟨labels, values, rfl, rfl, by simpa using hout.symm⟩
  subst hpairs
  constructor
  · refine ⟨?_, ?_, ?_⟩ <;> simp [bb_show, _load_cache, hc]
  · have hfresh : bb_show st uid true = bbShowFresh st uid := by
      simp [bb_show, _load_cache, hc]
    have hws : (st.sh.sheets (_user_tab_name uid)).getD (fun _ => "") = ws := by
      rw [htab]
      rfl
    have hbody : bbShowFresh st uid
        = ({ sh := st.sh,
             cache := _save_cache st.cache uid
               ⟨ints, labels.zip values, _user_tab_name uid⟩ },
           [Op.cacheLoad, Op.fetchTab (_user_tab_name uid), Op.remoteRead "L8:L13",
            Op.remoteRead "M2:M13", Op.remoteRead "O2:O13", Op.cacheSave,
            Op.remoteRead "J5", Op.remoteRead "J2"],
           ShowResult.shown ints (labels.zip values) (ws "J5") (ws "J2")) := by
      rw [bbShowFresh, he]
      simp only [hws, hints, hlab, hval, hlen, if_pos rfl]
      rfl
    refine ⟨?_, ?_, ?_, ?_⟩ <;> simp [hfresh, hbody, _save_cache]

/-- C7 witness: the not-found/fresh theorem at the concrete no-cache
state for user 42 (sheet present, L8:L13 = 10..15, outputs readable
with no interior-empty row). -/
theorem bb_show_no_cache_witness :
    (bb_show stNoCache 42 false).2.2
      = ShowResult.notFound "No cached build yet. Use `/bb_set` first." ∧
    (bb_show stNoCache 42 false).2.1 = [Op.cacheLoad] ∧
    (bb_show stNoCache 42 true).2.2
      = ShowResult.shown [10, 11, 12, 13, 14, 15] [("Health:", "1500")]
          (ws42 "J5") (ws42 "J2") ∧
    (bb_show stNoCache 42 true).1.cache "42"
      = some ⟨[10, 11, 12, 13, 14, 15], [("Health:", "1500")], _user_tab_name 42⟩ := by
  obtain ⟨pa, pb⟩ :=
    bb_show_no_cache stNoCache 42 ws42 [10, 11, 12, 13, 14, 15] [("Health:", "1500")]
      rfl rfl (by decide) (by decide) (by decide)
  exact ⟨pa.1, pa.2.2, pb.1, pb.2.1⟩

/-- C9 counterexample: in the Provisioned state (personal sheet u_42
exists, no cache row) bb_delete deletes nothing: it answers the
no-tab/cache message and the sheet is still present afterwards. -/
theorem bb_delete_provisioned_ce :
    (stNoCache.sh.sheets (_user_tab_name 42)).isSome = true ∧
    _load_cache stNoCache 42 = Option.none ∧
    bb_delete stNoCache 42 = (stNoCache, [Op.cacheLoad], "No personal tab/cache found.") ∧
    ((bb_delete stNoCache 42).1.sh.sheets (_user_tab_name 42)).isSome = true :=
  ⟨rfl, rfl, rfl, rfl⟩

/-- C9 (amended): bb_delete deletes the personal sheet and the cache row
exactly when a CacheRecord exists (removing the tab named in the record
and the row); with no CacheRecord — including the Provisioned state —
it changes nothing and reports that no tab/cache was found. -/
theorem bb_delete_amended (st : BotState) (uid : ℕ) :
    (_load_cache st uid = Option.none →
        bb_delete st uid = (st, [Op.cacheLoad], "No personal tab/cache found.")) ∧
    (∀ c, _load_cache st uid = some c →
        (bb_delete st uid).1.cache (toString uid) = Option.none ∧
        (bb_delete st uid).1.sh.sheets c.sheet_tab = Option.none ∧
        (bb_delete st uid).2.2
          = "Your Bloodborne sheet tab and cache have been deleted.") := by
  constructor
  · intro h
    simp [bb_delete, h]
  · intro c hc
    rcases hts : st.sh.sheets c.sheet_tab with _ | w <;>
      refine ⟨?_, ?_, ?_⟩ <;> simp [bb_delete, hc, hts, shDelete]

/-- C9 witness: the amended delete theorem at the concrete cached state
for user 42. -/
theorem bb_delete_amended_witness :
    (bb_delete stCached 42).1.cache "42" = Option.none ∧
    (bb_delete stCached 42).1.sh.sheets "u_42" = Option.none ∧
    (bb_delete stCached 42).2.2
      = "Your Bloodborne sheet tab and cache have been deleted." :=
  (bb_delete_amended stCached 42).2 cacheRec42 rfl

/-- C8: when any provided choice value of bb_gear or bb_weapon is not a
member of its reference list, the command replies with the bad list that
names every offending field, performs no remote write at all (no region
write, no duplication, no deletion), and leaves the whole state
unchanged; and each offending provided field does appear, by name, in
that list. -/
theorem validation_error_reports_all_and_writes_nothing
    (st : BotState) (uid : ℕ) (ws rws aws wws : Worksheet)
    (rune1 rune2 rune3 oath head chest arms legs : Option String)
    (weapon attack g1p g1s g1c g2p g2s g2c g3p g3s g3c k1 k2 k3 : Option String)
    (htab : st.sh.sheets (_user_tab_name uid) = some ws)
    (hrw : st.sh.sheets "Rune Data" = some rws)
    (haw : st.sh.sheets "Armor Data" = some aws)
    (hww : st.sh.sheets "Weapon Data" = some wws) :
    (gearBad (_get_rune_choices rws) (_get_oath_choices rws)
        (_get_head_armor_choices aws) (_get_chest_armor_choices aws)
        (_get_arms_armor_choices aws) (_get_legs_armor_choices aws)
        rune1 rune2 rune3 oath head chest arms legs ≠ [] →
      (bb_gear st uid rune1 rune2 rune3 oath head chest arms legs).1 = st ∧
      (bb_gear st uid rune1 rune2 rune3 oath head chest arms legs).2.1.filter Op.isRemoteWrite = [] ∧
      (bb_gear st uid rune1 rune2 rune3 oath head chest arms legs).2.2 = CmdOutcome.invalid (gearBad (_get_rune_choices rws) (_get_oath_choices rws)
        (_get_head_armor_choices aws) (_get_chest_armor_choices aws)
        (_get_arms_armor_choices aws) (_get_legs_armor_choices aws)
        rune1 rune2 rune3 oath head chest arms legs)) ∧
    (weaponBad (_get_weapon_choices wws) (_get_attack_choices wws)
        (_get_gem_choices wws) weapon attack g1p g1s g1c g2p g2s g2c g3p g3s g3c ≠ [] →
      (bb_weapon st uid weapon attack g1p g1s g1c g2p g2s g2c g3p g3s g3c k1 k2 k3).1 = st ∧
      (bb_weapon st uid weapon attack g1p g1s g1c g2p g2s g2c g3p g3s g3c k1 k2 k3).2.1.filter Op.isRemoteWrite = [] ∧
      (bb_weapon st uid weapon attack g1p g1s g1c g2p g2s g2c g3p g3s g3c k1 k2 k3).2.2 = CmdOutcome.invalid (weaponBad (_get_weapon_choices wws) (_get_attack_choices wws)
        (_get_gem_choices wws) weapon attack g1p g1s g1c g2p g2s g2c g3p g3s g3c)) ∧
    (∀ v, rune1 = some v → v ∉ _get_rune_choices rws →
        ("Rune1" ++ ": " ++ v) ∈ gearBad (_get_rune_choices rws) (_get_oath_choices rws)
        (_get_head_armor_choices aws) (_get_chest_armor_choices aws)
        (_get_arms_armor_choices aws) (_get_legs_armor_choices aws)
        rune1 rune2 rune3 oath head chest arms legs) ∧
    (∀ v, rune2 = some v → v ∉ _get_rune_choices rws →
        ("Rune2" ++ ": " ++ v) ∈ gearBad (_get_rune_choices rws) (_get_oath_choices rws)
        (_get_head_armor_choices aws) (_get_chest_armor_choices aws)
        (_get_arms_armor_choices aws) (_get_legs_armor_choices aws)
        rune1 rune2 rune3 oath head chest arms legs) ∧
    (∀ v, rune3 = some v → v ∉ _get_rune_choices rws →
        ("Rune3" ++ ": " ++ v) ∈ gearBad (_get_rune_choices rws) (_get_oath_choices rws)
        (_get_head_armor_choices aws) (_get_chest_armor_choices aws)
        (_get_arms_armor_choices aws) (_get_legs_armor_choices aws)
        rune1 rune2 rune3 oath head chest arms legs) ∧
    (∀ v, oath = some v → v ∉ _get_oath_choices rws →
        ("Oath" ++ ": " ++ v) ∈ gearBad (_get_rune_choices rws) (_get_oath_choices rws)
        (_get_head_armor_choices aws) (_get_chest_armor_choices aws)
        (_get_arms_armor_choices aws) (_get_legs_armor_choices aws)
        rune1 rune2 rune3 oath head chest arms legs) ∧
    (∀ v, head = some v → v ∉ _get_head_armor_choices aws →
        ("Head" ++ ": " ++ v) ∈ gearBad (_get_rune_choices rws) (_get_oath_choices rws)
        (_get_head_armor_choices aws) (_get_chest_armor_choices aws)
        (_get_arms_armor_choices aws) (_get_legs_armor_choices aws)
        rune1 rune2 rune3 oath head chest arms legs) ∧
    (∀ v, chest = some v → v ∉ _get_chest_armor_choices aws →
        ("Chest" ++ ": " ++ v) ∈ gearBad (_get_rune_choices rws) (_get_oath_choices rws)
        (_get_head_armor_choices aws) (_get_chest_armor_choices aws)
        (_get_arms_armor_choices aws) (_get_legs_armor_choices aws)
        rune1 rune2 rune3 oath head chest arms legs) ∧
    (∀ v, arms = some v → v ∉ _get_arms_armor_choices aws →
        ("Arms" ++ ": " ++ v) ∈ gearBad (_get_rune_choices rws) (_get_oath_choices rws)
        (_get_head_armor_choices aws) (_get_chest_armor_choices aws)
        (_get_arms_armor_choices aws) (_get_legs_armor_choices aws)
        rune1 rune2 rune3 oath head chest arms legs) ∧
    (∀ v, legs = some v → v ∉ _get_legs_armor_choices aws →
        ("Legs" ++ ": " ++ v) ∈ gearBad (_get_rune_choices rws) (_get_oath_choices rws)
        (_get_head_armor_choices aws) (_get_chest_armor_choices aws)
        (_get_arms_armor_choices aws) (_get_legs_armor_choices aws)
        rune1 rune2 rune3 oath head chest arms legs) ∧
    (∀ v, weapon = some v → v ∉ _get_weapon_choices wws →
        ("Weapon" ++ ": " ++ v) ∈ weaponBad (_get_weapon_choices wws) (_get_attack_choices wws)
        (_get_gem_choices wws) weapon attack g1p g1s g1c g2p g2s g2c g3p g3s g3c) ∧
    (∀ v, attack = some v → v ∉ _get_attack_choices wws →
        ("Attack" ++ ": " ++ v) ∈ weaponBad (_get_weapon_choices wws) (_get_attack_choices wws)
        (_get_gem_choices wws) weapon attack g1p g1s g1c g2p g2s g2c g3p g3s g3c) ∧
    (∀ v, g1p = some v → v ∉ _get_gem_choices wws →
        ("Gem 1 Primary" ++ ": " ++ v) ∈ weaponBad (_get_weapon_choices wws) (_get_attack_choices wws)
        (_get_gem_choices wws) weapon attack g1p g1s g1c g2p g2s g2c g3p g3s g3c) ∧
    (∀ v, g1s = some v → v ∉ _get_gem_choices wws →
        ("Gem 1 Secondary" ++ ": " ++ v) ∈ weaponBad (_get_weapon_choices wws) (_get_attack_choices wws)
        (_get_gem_choices wws) weapon attack g1p g1s g1c g2p g2s g2c g3p g3s g3c) ∧
    (∀ v, g1c = some v → v ∉ _get_gem_choices wws →
        ("Gem 1 Curse/Tertiary" ++ ": " ++ v) ∈ weaponBad (_get_weapon_choices wws) (_get_attack_choices wws)
        (_get_gem_choices wws) weapon attack g1p g1s g1c g2p g2s g2c g3p g3s g3c) ∧
    (∀ v, g2p = some v → v ∉ _get_gem_choices wws →
        ("Gem 2 Primary" ++ ": " ++ v) ∈ weaponBad (_get_weapon_choices wws) (_get_attack_choices wws)
        (_get_gem_choices wws) weapon attack g1p g1s g1c g2p g2s g2c g3p g3s g3c) ∧
    (∀ v, g2s = some v → v ∉ _get_gem_choices wws →
        ("Gem 2 Secondary" ++ ": " ++ v) ∈ weaponBad (_get_weapon_choices wws) (_get_attack_choices wws)
        (_get_gem_choices wws) weapon attack g1p g1s g1c g2p g2s g2c g3p g3s g3c) ∧
    (∀ v, g2c = some v → v ∉ _get_gem_choices wws →
        ("Gem 2 Curse/Tertiary" ++ ": " ++ v) ∈ weaponBad (_get_weapon_choices wws) (_get_attack_choices wws)
        (_get_gem_choices wws) weapon attack g1p g1s g1c g2p g2s g2c g3p g3s g3c) ∧
    (∀ v, g3p = some v → v ∉ _get_gem_choices wws →
        ("Gem 3 Primary" ++ ": " ++ v) ∈ weaponBad (_get_weapon_choices wws) (_get_attack_choices wws)
        (_get_gem_choices wws) weapon attack g1p g1s g1c g2p g2s g2c g3p g3s g3c) ∧
    (∀ v, g3s = some v → v ∉ _get_gem_choices wws →
        ("Gem 3 Secondary" ++ ": " ++ v) ∈ weaponBad (_get_weapon_choices wws) (_get_attack_choices wws)
        (_get_gem_choices wws) weapon attack g1p g1s g1c g2p g2s g2c g3p g3s g3c) ∧
    (∀ v, g3c = some v → v ∉ _get_gem_choices wws →
        ("Gem 3 Curse/Tertiary" ++ ": " ++ v) ∈ weaponBad (_get_weapon_choices wws) (_get_attack_choices wws)
        (_get_gem_choices wws) weapon attack g1p g1s g1c g2p g2s g2c g3p g3s g3c) := by
  have he : _ensure_user_tab st.sh uid
      = (some (st.sh, _user_tab_name uid), [Op.fetchTab (_user_tab_name uid)]) := by
    simp only [_ensure_user_tab, htab]
  refine ⟨?_, ?_, ?_, ?_, ?_, ?_, ?_, ?_, ?_, ?_, ?_, ?_, ?_, ?_, ?_, ?_, ?_, ?_, ?_, ?_, ?_⟩
  · intro hbad
    refine ⟨?_, ?_, ?_⟩ <;>
      simp [bb_gear, he, hrw, haw, hbad, Op.isRemoteWrite]
  · intro hbad
    refine ⟨?_, ?_, ?_⟩ <;>
      simp [bb_weapon, he, hww, hbad, Op.isRemoteWrite]
  · intro v hv hnv
    subst hv
    simp [gearBad, checkField, hnv]
  · intro v hv hnv
    subst hv
    simp [gearBad, checkField, hnv]
  · intro v hv hnv
    subst hv
    simp [gearBad, checkField, hnv]
  · intro v hv hnv
    subst hv
    simp [gearBad, checkField, hnv]
  · intro v hv hnv
    subst hv
    simp [gearBad, checkField, hnv]
  · intro v hv hnv
    subst hv
    simp [gearBad, checkField, hnv]
  · intro v hv hnv
    subst hv
    simp [gearBad, checkField, hnv]
  · intro v hv hnv
    subst hv
    simp [gearBad, checkField, hnv]
  · intro v hv hnv
    subst hv
    simp [weaponBad, checkField, hnv]
  · intro v hv hnv
    subst hv
    simp [weaponBad, checkField, hnv]
  · intro v hv hnv
    subst hv
    simp [weaponBad, checkField, hnv]
  · intro v hv hnv
    subst hv
    simp [weaponBad, checkField, hnv]
  · intro v hv hnv
    subst hv
    simp [weaponBad, checkField, hnv]
  · intro v hv hnv
    subst hv
    simp [weaponBad, checkField, hnv]
  · intro v hv hnv
    subst hv
    simp [weaponBad, checkField, hnv]
  · intro v hv hnv
    subst hv
    simp [weaponBad, checkField, hnv]
  · intro v hv hnv
    subst hv
    simp [weaponBad, checkField, hnv]
  · intro v hv hnv
    subst hv
    simp [weaponBad, checkField, hnv]
  · intro v hv hnv
    subst hv
    simp [weaponBad, checkField, hnv]

/-- C8 witness: the validation theorem at the concrete full state, with
one bad rune and one bad weapon; both commands reply with the offending
field list and leave the state untouched. -/
theorem validation_error_witness :
    (bb_gear stNoCache 42 (some "BadRune") Option.none Option.none Option.none Option.none Option.none Option.none Option.none).1 = stNoCache ∧
    (bb_gear stNoCache 42 (some "BadRune") Option.none Option.none Option.none Option.none Option.none Option.none Option.none).2.1.filter Op.isRemoteWrite = [] ∧
    (bb_gear stNoCache 42 (some "BadRune") Option.none Option.none Option.none Option.none Option.none Option.none Option.none).2.2 = CmdOutcome.invalid ["Rune1: BadRune"] ∧
    (bb_weapon stNoCache 42 (some "BadWeapon") Option.none Option.none Option.none Option.none Option.none Option.none Option.none Option.none Option.none Option.none Option.none Option.none Option.none).1 = stNoCache ∧
    (bb_weapon stNoCache 42 (some "BadWeapon") Option.none Option.none Option.none Option.none Option.none Option.none Option.none Option.none Option.none Option.none Option.none Option.none Option.none).2.1.filter Op.isRemoteWrite = [] ∧
    (bb_weapon stNoCache 42 (some "BadWeapon") Option.none Option.none Option.none Option.none Option.none Option.none Option.none Option.none Option.none Option.none Option.none Option.none Option.none).2.2 = CmdOutcome.invalid ["Weapon: BadWeapon"] := by
  have T := validation_error_reports_all_and_writes_nothing stNoCache 42 ws42 refWs
    templateWs templateWs (some "BadRune") Option.none Option.none Option.none
    Option.none Option.none Option.none Option.none (some "BadWeapon") Option.none
    Option.none Option.none Option.none Option.none Option.none Option.none
    Option.none Option.none Option.none Option.none Option.none Option.none
    rfl rfl rfl rfl
  have hg := T.1 (by decide)
  have hw := T.2.1 (by decide)
  exact ⟨hg.1, hg.2.1, hg.2.2.trans (by decide), hw.1, hw.2.1, hw.2.2.trans (by decide)⟩

end YakBot

